import Mathlib

/-!
Verification of the restricted-access proxy layer of
`blaze/math/proxy/DenseVectorProxy.h`.

The proxy class forwards the dense-vector operation surface to the
Representee obtained via `(~*this).get()`, gating the mutating subset behind
the polymorphic predicate `(~*this).isRestricted()`.  The concrete dense
vector classes are external to the excerpt, so the Representee is modelled
from the specification; every proxy member and free function below is
translated from the source file.
-/

set_option autoImplicit false

namespace Blaze

/-- Modelled from the spec: the exception values of the proxy layer and the
Representee.  `invalid_argument` mirrors `std::invalid_argument` (the error the
restriction gate throws); `out_of_range` stands for an out-of-range failure a
Representee may raise on indexed access (spec section 4.1). -/
inductive Exc where
  | invalid_argument (msg : String)
  | out_of_range (msg : String)
deriving DecidableEq

/-- The exact error thrown by every restriction-gated proxy operation:
`std::invalid_argument( "Invalid access to restricted element" )`. -/
def accessRestricted : Exc := .invalid_argument "Invalid access to restricted element"

/-- Modelled from the spec: the Representee, a dense vector-shaped container
owning its storage, with its element sequence and allocated capacity
(spec section 3).  The concrete dense vector classes are not part of the
excerpted source. -/
structure Rep (α : Type) where
  elems : List α
  cap : Nat
deriving DecidableEq

/-- Modelled from the spec: `size()` of the Representee, the element count. -/
def Rep.size {α : Type} (v : Rep α) : Nat := v.elems.length

/-- Modelled from the spec: `capacity()` of the Representee. -/
def Rep.capacity {α : Type} (v : Rep α) : Nat := v.cap

/-- Modelled from the spec: `nonZeros()` of the Representee, the count of
non-default elements. -/
def Rep.nonZeros {α : Type} [DecidableEq α] [Zero α] (v : Rep α) : Nat :=
  v.elems.countP (fun x => decide (x ≠ 0))

/-- Modelled from the spec: reading element `index` of the Representee.
Out-of-range access is whatever the Representee defines; the spec names an
out-of-range failure, modelled as an `out_of_range` error. -/
def Rep.get {α : Type} (v : Rep α) (index : Nat) : Except Exc α :=
  if h : index < v.elems.length then .ok (v.elems.get ⟨index, h⟩)
  else .error (.out_of_range "Vector access index out of bounds")

/-- Modelled from the spec: writing element `index` of the Representee through
the reference returned by its subscript operator. -/
def Rep.set {α : Type} (v : Rep α) (index : Nat) (x : α) : Except Exc (Rep α) :=
  if index < v.elems.length then .ok { v with elems := v.elems.set index x }
  else .error (.out_of_range "Vector access index out of bounds")

/-- Modelled from the spec: `data()` of the Representee, the view of the
internal element storage that the raw pointer grants. -/
def Rep.data {α : Type} (v : Rep α) : List α := v.elems

/-- Modelled from the spec: the mutable `begin()` iterator of the Representee,
modelled as an offset into the storage. -/
def Rep.beginIter {α : Type} (_v : Rep α) : Nat := 0

/-- Modelled from the spec: the mutable `end()` iterator of the Representee. -/
def Rep.endIter {α : Type} (v : Rep α) : Nat := v.elems.length

/-- Modelled from the spec: the constant `cbegin()` iterator of the
Representee. -/
def Rep.cbegin {α : Type} (_v : Rep α) : Nat := 0

/-- Modelled from the spec: the constant `cend()` iterator of the
Representee. -/
def Rep.cend {α : Type} (v : Rep α) : Nat := v.elems.length

/-- Modelled from the spec: `resize(n, preserve)` of the Representee.  The new
size is `n`; with `preserve` the elements at indices valid before and after
keep their values; new elements are default-initialised in the model (the spec
leaves them unspecified); capacity grows when too small. -/
def Rep.resize {α : Type} [Zero α] (v : Rep α) (n : Nat) (preserve : Bool) : Rep α :=
  { elems := if preserve then v.elems.take n ++ List.replicate (n - v.elems.length) 0
             else List.replicate n 0,
    cap := max v.cap n }

/-- Modelled from the spec: `extend(n, preserve)` of the Representee, adding
`n` elements to the current size. -/
def Rep.extend {α : Type} [Zero α] (v : Rep α) (n : Nat) (preserve : Bool) : Rep α :=
  { elems := if preserve then v.elems ++ List.replicate n 0
             else List.replicate (v.elems.length + n) 0,
    cap := max v.cap (v.elems.length + n) }

/-- Modelled from the spec: `reserve(n)` of the Representee, raising the
capacity to at least `n` and preserving the element values. -/
def Rep.reserve {α : Type} (v : Rep α) (n : Nat) : Rep α :=
  { v with cap := max v.cap n }

/-- Modelled from the spec: `scale(scalar)` of the Representee, the in-place
uniform scaling of every element. -/
def Rep.scale {α : Type} [Mul α] (v : Rep α) (scalar : α) : Rep α :=
  { v with elems := v.elems.map (fun x => x * scalar) }

/-- Modelled from the spec: `reset()` of the Representee, setting all elements
to their default value and keeping the size. -/
def Rep.reset {α : Type} [Zero α] (v : Rep α) : Rep α :=
  { v with elems := v.elems.map (fun _ => 0) }

/-- Modelled from the spec: `clear()` of the Representee, emptying the
container to its default initial state. -/
def Rep.clear {α : Type} (v : Rep α) : Rep α :=
  { v with elems := [] }

/-- The access proxy of `DenseVectorProxy.h`: a non-owning handle.
`restricted` is the value the polymorphic predicate `(~*this).isRestricted()`
returns during the call, and `vec` is the Representee `(~*this).get()`
refers to. -/
structure DenseVectorProxy (α : Type) where
  restricted : Bool
  vec : Rep α
deriving DecidableEq

/-- `DenseVectorProxy::operator[]` (lines 136-145), read through the returned
reference: gate on `isRestricted()`, then forward `(~*this).get()[index]`
with no bounds check of the proxy's own. -/
def DenseVectorProxy.subscript {α : Type} (p : DenseVectorProxy α) (index : Nat) :
    Except Exc α :=
  if p.restricted then .error (.invalid_argument "Invalid access to restricted element")
  else p.vec.get index

/-- `DenseVectorProxy::operator[]` (lines 136-145), write through the returned
reference: gate on `isRestricted()`, then assign through
`(~*this).get()[index]`. -/
def DenseVectorProxy.subscriptAssign {α : Type} (p : DenseVectorProxy α) (index : Nat)
    (x : α) : Except Exc (Rep α) :=
  if p.restricted then .error (.invalid_argument "Invalid access to restricted element")
  else p.vec.set index x

/-- `DenseVectorProxy::data` (lines 156-164): gate on `isRestricted()`, then
forward `(~*this).get().data()`. -/
def DenseVectorProxy.data {α : Type} (p : DenseVectorProxy α) : Except Exc (List α) :=
  if p.restricted then .error (.invalid_argument "Invalid access to restricted element")
  else .ok p.vec.data

/-- `DenseVectorProxy::begin` (lines 173-181): gate on `isRestricted()`, then
forward `(~*this).get().begin()`. -/
def DenseVectorProxy.beginIter {α : Type} (p : DenseVectorProxy α) : Except Exc Nat :=
  if p.restricted then .error (.invalid_argument "Invalid access to restricted element")
  else .ok p.vec.beginIter

/-- `DenseVectorProxy::cbegin` (lines 190-195): forwards
`(~*this).get().cbegin()` with no restriction check. -/
def DenseVectorProxy.cbegin {α : Type} (p : DenseVectorProxy α) : Nat :=
  p.vec.cbegin

/-- `DenseVectorProxy::end` (lines 204-212): gate on `isRestricted()`, then
forward `(~*this).get().end()`. -/
def DenseVectorProxy.endIter {α : Type} (p : DenseVectorProxy α) : Except Exc Nat :=
  if p.restricted then .error (.invalid_argument "Invalid access to restricted element")
  else .ok p.vec.endIter

/-- `DenseVectorProxy::cend` (lines 221-226): forwards
`(~*this).get().cend()` with no restriction check. -/
def DenseVectorProxy.cend {α : Type} (p : DenseVectorProxy α) : Nat :=
  p.vec.cend

/-- `DenseVectorProxy::size` (lines 243-248): forwards
`(~*this).get().size()` with no restriction check. -/
def DenseVectorProxy.size {α : Type} (p : DenseVectorProxy α) : Nat :=
  p.vec.size

/-- `DenseVectorProxy::capacity` (lines 257-262): forwards
`(~*this).get().capacity()` with no restriction check. -/
def DenseVectorProxy.capacity {α : Type} (p : DenseVectorProxy α) : Nat :=
  p.vec.capacity

/-- `DenseVectorProxy::nonZeros` (lines 274-279): forwards
`(~*this).get().nonZeros()` with no restriction check. -/
def DenseVectorProxy.nonZeros {α : Type} [DecidableEq α] [Zero α]
    (p : DenseVectorProxy α) : Nat :=
  p.vec.nonZeros

/-- `DenseVectorProxy::reset` (lines 290-297): delegates
`reset( (~*this).get() )` directly, with no restriction check; the call cannot
fail, so its outcome is always `ok`. -/
def DenseVectorProxy.reset {α : Type} [Zero α] (p : DenseVectorProxy α) :
    Except Exc (Rep α) :=
  .ok p.vec.reset

/-- `DenseVectorProxy::clear` (lines 308-315): delegates
`clear( (~*this).get() )` directly, with no restriction check; the call cannot
fail, so its outcome is always `ok`. -/
def DenseVectorProxy.clear {α : Type} (p : DenseVectorProxy α) :
    Except Exc (Rep α) :=
  .ok p.vec.clear

/-- `DenseVectorProxy::resize` (declared line 104 with `preserve=true`,
defined lines 334-342): gate on `isRestricted()`, then forward
`(~*this).get().resize( n, preserve )`. -/
def DenseVectorProxy.resize {α : Type} [Zero α] (p : DenseVectorProxy α) (n : Nat)
    (preserve : Bool := true) : Except Exc (Rep α) :=
  if p.restricted then .error (.invalid_argument "Invalid access to restricted element")
  else .ok (p.vec.resize n preserve)

/-- `DenseVectorProxy::extend` (declared line 105 with `preserve=true`,
defined lines 359-367): gate on `isRestricted()`, then forward
`(~*this).get().extend( n, preserve )`. -/
def DenseVectorProxy.extend {α : Type} [Zero α] (p : DenseVectorProxy α) (n : Nat)
    (preserve : Bool := true) : Except Exc (Rep α) :=
  if p.restricted then .error (.invalid_argument "Invalid access to restricted element")
  else .ok (p.vec.extend n preserve)

/-- `DenseVectorProxy::reserve` (lines 380-388): gate on `isRestricted()`,
then forward `(~*this).get().reserve( n )`. -/
def DenseVectorProxy.reserve {α : Type} (p : DenseVectorProxy α) (n : Nat) :
    Except Exc (Rep α) :=
  if p.restricted then .error (.invalid_argument "Invalid access to restricted element")
  else .ok (p.vec.reserve n)

/-- `DenseVectorProxy::scale` (lines 398-407): gate on `isRestricted()`, then
forward `(~*this).get().scale( scalar )`. -/
def DenseVectorProxy.scale {α : Type} [Mul α] (p : DenseVectorProxy α) (scalar : α) :
    Except Exc (Rep α) :=
  if p.restricted then .error (.invalid_argument "Invalid access to restricted element")
  else .ok (p.vec.scale scalar)

/-- C++ exception semantics for a void call mutating the Representee: if the
call throws, the Representee keeps its state from before the call; otherwise
it takes the new state. -/
def post {α : Type} (v : Rep α) : Except Exc (Rep α) → Rep α
  | .ok w => w
  | .error _ => v

end Blaze

namespace Blaze

/-- Free function `begin( const DenseVectorProxy& )` (lines 463-469): pure
delegation to `proxy.begin()`. -/
def begin {α : Type} (proxy : DenseVectorProxy α) : Except Exc Nat :=
  proxy.beginIter

/-- Free function `cbegin( const DenseVectorProxy& )` (lines 480-486): pure
delegation to `proxy.cbegin()`. -/
def cbegin {α : Type} (proxy : DenseVectorProxy α) : Nat :=
  proxy.cbegin

/-- Free function `end( const DenseVectorProxy& )` (lines 497-503): pure
delegation to `proxy.end()`. -/
def endIter {α : Type} (proxy : DenseVectorProxy α) : Except Exc Nat :=
  proxy.endIter

/-- Free function `cend( const DenseVectorProxy& )` (lines 514-520): pure
delegation to `proxy.cend()`. -/
def cend {α : Type} (proxy : DenseVectorProxy α) : Nat :=
  proxy.cend

/-- Free function `size( const DenseVectorProxy& )` (lines 531-536): pure
delegation to `proxy.size()`. -/
def size {α : Type} (proxy : DenseVectorProxy α) : Nat :=
  proxy.size

/-- Free function `capacity( const DenseVectorProxy& )` (lines 547-552): pure
delegation to `proxy.capacity()`. -/
def capacity {α : Type} (proxy : DenseVectorProxy α) : Nat :=
  proxy.capacity

/-- Free function `nonZeros( const DenseVectorProxy& )` (lines 566-571): pure
delegation to `proxy.nonZeros()`. -/
def nonZeros {α : Type} [DecidableEq α] [Zero α] (proxy : DenseVectorProxy α) : Nat :=
  proxy.nonZeros

/-- Free function `reset( const DenseVectorProxy& )` (lines 584-589): pure
delegation to `proxy.reset()`. -/
def reset {α : Type} [Zero α] (proxy : DenseVectorProxy α) : Except Exc (Rep α) :=
  proxy.reset

/-- Free function `clear( const DenseVectorProxy& )` (lines 602-607): pure
delegation to `proxy.clear()`. -/
def clear {α : Type} (proxy : DenseVectorProxy α) : Except Exc (Rep α) :=
  proxy.clear

/-- The names of the free functions the GLOBAL FUNCTIONS section of
`DenseVectorProxy.h` declares for the proxy (lines 422-451): exactly these
nine and no others. -/
def freeFunctionNames : List String :=
  ["begin", "cbegin", "end", "cend", "size", "capacity", "nonZeros", "reset", "clear"]

/-- The full operation surface named by the specification when it states that
every operation is also available as a same-named free function; this list
follows the spec's words, for comparison with `freeFunctionNames`. -/
def specOperationSurface : List String :=
  ["size", "capacity", "nonZeros", "operator[]", "data", "begin", "end",
   "cbegin", "cend", "resize", "extend", "reserve", "scale", "reset", "clear"]

/-- One invocation of the proxy's operation surface, with its arguments. -/
inductive Op (α : Type) where
  | subscript (index : Nat)
  | subscriptAssign (index : Nat) (x : α)
  | data
  | beginIter
  | endIter
  | cbegin
  | cend
  | size
  | capacity
  | nonZeros
  | reset
  | clear
  | resize (n : Nat) (preserve : Bool)
  | extend (n : Nat) (preserve : Bool)
  | reserve (n : Nat)
  | scale (scalar : α)
deriving DecidableEq

/-- The value an operation of the surface returns when it succeeds. -/
inductive Ret (α : Type) where
  | unit
  | nat (n : Nat)
  | elem (x : α)
  | ptr (storage : List α)
deriving DecidableEq

/-- One call on the proxy: the outcome of the invoked member, and the state of
the Representee after the call (C++ exception semantics: a call that throws
leaves the Representee as it was). -/
def callOp {α : Type} [DecidableEq α] [Zero α] [Mul α] (p : DenseVectorProxy α) :
    Op α → Except Exc (Ret α) × Rep α
  | .subscript i => ((p.subscript i).map .elem, p.vec)
  | .subscriptAssign i x =>
      (((p.subscriptAssign i x).map fun _ => .unit), post p.vec (p.subscriptAssign i x))
  | .data => (p.data.map .ptr, p.vec)
  | .beginIter => (p.beginIter.map .nat, p.vec)
  | .endIter => (p.endIter.map .nat, p.vec)
  | .cbegin => (.ok (.nat p.cbegin), p.vec)
  | .cend => (.ok (.nat p.cend), p.vec)
  | .size => (.ok (.nat p.size), p.vec)
  | .capacity => (.ok (.nat p.capacity), p.vec)
  | .nonZeros => (.ok (.nat p.nonZeros), p.vec)
  | .reset => ((p.reset.map fun _ => .unit), post p.vec p.reset)
  | .clear => ((p.clear.map fun _ => .unit), post p.vec p.clear)
  | .resize n preserve =>
      (((p.resize n preserve).map fun _ => .unit), post p.vec (p.resize n preserve))
  | .extend n preserve =>
      (((p.extend n preserve).map fun _ => .unit), post p.vec (p.extend n preserve))
  | .reserve n => (((p.reserve n).map fun _ => .unit), post p.vec (p.reserve n))
  | .scale scalar => (((p.scale scalar).map fun _ => .unit), post p.vec (p.scale scalar))

/-- A sequence of calls on a proxy whose restriction predicate may change over
time: `pred` gives the value `isRestricted()` returns at each call, `t` is the
index of the next call.  Each member body of the source consults
`isRestricted()` inside the invocation, so call number `t` is gated by
`pred t`.  Returns the outcome of every call in order. -/
def outcomesFrom {α : Type} [DecidableEq α] [Zero α] [Mul α] (pred : Nat → Bool)
    (t : Nat) (v : Rep α) : List (Op α) → List (Except Exc (Ret α))
  | [] => []
  | op :: ops =>
      (callOp ⟨pred t, v⟩ op).1 ::
        outcomesFrom pred (t + 1) (callOp ⟨pred t, v⟩ op).2 ops

/-- The state of the Representee just before call number `i` of the sequence
(counting from the call at index `t`). -/
def stateBefore {α : Type} [DecidableEq α] [Zero α] [Mul α] (pred : Nat → Bool)
    (t : Nat) (v : Rep α) : List (Op α) → Nat → Rep α
  | [], _ => v
  | _ :: _, 0 => v
  | op :: ops, i + 1 => stateBefore pred (t + 1) (callOp ⟨pred t, v⟩ op).2 ops i

/-- C1: on a proxy whose restriction predicate evaluates true, each gated
operation — subscript read and write, `data`, mutable `begin` and `end`,
`resize`, `extend`, `reserve`, `scale` — fails with the access-restricted
error raised before any Representee call, and the Representee's state, hence
its `size`, `capacity`, `nonZeros` and every element value, is unchanged. -/
theorem restricted_gate_denies_and_preserves {α : Type} [DecidableEq α] [Zero α]
    [Mul α] (v : Rep α) (i n : Nat) (preserve : Bool) (x scalar : α) :
    callOp (DenseVectorProxy.mk true v) (.subscript i) = (.error accessRestricted, v) ∧
    callOp (DenseVectorProxy.mk true v) (.subscriptAssign i x) = (.error accessRestricted, v) ∧
    callOp (DenseVectorProxy.mk true v) .data = (.error accessRestricted, v) ∧
    callOp (DenseVectorProxy.mk true v) .beginIter = (.error accessRestricted, v) ∧
    callOp (DenseVectorProxy.mk true v) .endIter = (.error accessRestricted, v) ∧
    callOp (DenseVectorProxy.mk true v) (.resize n preserve) = (.error accessRestricted, v) ∧
    callOp (DenseVectorProxy.mk true v) (.extend n preserve) = (.error accessRestricted, v) ∧
    callOp (DenseVectorProxy.mk true v) (.reserve n) = (.error accessRestricted, v) ∧
    callOp (DenseVectorProxy.mk true v) (.scale scalar) = (.error accessRestricted, v) ∧
    (callOp (DenseVectorProxy.mk true v) (.resize n preserve)).2.size = v.size ∧
    (callOp (DenseVectorProxy.mk true v) (.resize n preserve)).2.capacity = v.capacity ∧
    (callOp (DenseVectorProxy.mk true v) (.scale scalar)).2.nonZeros = v.nonZeros ∧
    ∀ j : Nat, ((callOp (DenseVectorProxy.mk true v) (.scale scalar)).2).get j = v.get j :=
  ⟨rfl, rfl, rfl, rfl, rfl, rfl, rfl, rfl, rfl, rfl, rfl, rfl, fun _ => rfl⟩

/-- C2: `reset` and `clear` are not restriction-checked: whatever the
restriction predicate returns, each delegates directly to the Representee,
never raises the access-restricted error, and performs its mutation. -/
theorem reset_clear_unchecked {α : Type} [DecidableEq α] [Zero α] [Mul α]
    (b : Bool) (v : Rep α) :
    callOp (DenseVectorProxy.mk b v) .reset = (.ok .unit, v.reset) ∧
    callOp (DenseVectorProxy.mk b v) .clear = (.ok .unit, v.clear) :=
  ⟨rfl, rfl⟩

/-- C4: `size`, `capacity`, `nonZeros`, `cbegin` and `cend` succeed on every
proxy regardless of restriction state, return the value of the same operation
on the Representee, and leave the Representee untouched. -/
theorem unchecked_queries_match_representee {α : Type} [DecidableEq α] [Zero α]
    [Mul α] (b : Bool) (v : Rep α) :
    callOp (DenseVectorProxy.mk b v) .size = (.ok (.nat v.size), v) ∧
    callOp (DenseVectorProxy.mk b v) .capacity = (.ok (.nat v.capacity), v) ∧
    callOp (DenseVectorProxy.mk b v) .nonZeros = (.ok (.nat v.nonZeros), v) ∧
    callOp (DenseVectorProxy.mk b v) .cbegin = (.ok (.nat v.cbegin), v) ∧
    callOp (DenseVectorProxy.mk b v) .cend = (.ok (.nat v.cend), v) :=
  ⟨rfl, rfl, rfl, rfl, rfl⟩

/-- C5: on a proxy whose restriction predicate evaluates false, every gated
operation forwards verbatim to the Representee with unmodified arguments: the
result is the Representee's result unchanged, any Representee error (such as
the out-of-range failure of indexed access) propagates unmodified, and the
proxy adds no bounds check of its own. -/
theorem unrestricted_forwards_verbatim {α : Type} [Zero α] [Mul α] (v : Rep α)
    (i n : Nat) (preserve : Bool) (x scalar : α) :
    (DenseVectorProxy.mk false v).subscript i = v.get i ∧
    (DenseVectorProxy.mk false v).subscriptAssign i x = v.set i x ∧
    (DenseVectorProxy.mk false v).data = .ok v.data ∧
    (DenseVectorProxy.mk false v).beginIter = .ok v.beginIter ∧
    (DenseVectorProxy.mk false v).endIter = .ok v.endIter ∧
    (DenseVectorProxy.mk false v).resize n preserve = .ok (v.resize n preserve) ∧
    (DenseVectorProxy.mk false v).extend n preserve = .ok (v.extend n preserve) ∧
    (DenseVectorProxy.mk false v).reserve n = .ok (v.reserve n) ∧
    (DenseVectorProxy.mk false v).scale scalar = .ok (v.scale scalar) :=
  ⟨rfl, rfl, rfl, rfl, rfl, rfl, rfl, rfl, rfl⟩

/-- C8: every gated operation, when denied, produces the very same error
value: an invalid-argument error with the message
"Invalid access to restricted element", identical across all gated
operations, so the error does not identify which operation was denied. -/
theorem denial_error_uniform {α : Type} [Zero α] [Mul α] (v : Rep α)
    (i n : Nat) (preserve : Bool) (x scalar : α) :
    (DenseVectorProxy.mk true v).subscript i =
      .error (.invalid_argument "Invalid access to restricted element") ∧
    (DenseVectorProxy.mk true v).subscriptAssign i x =
      .error (.invalid_argument "Invalid access to restricted element") ∧
    (DenseVectorProxy.mk true v).data =
      .error (.invalid_argument "Invalid access to restricted element") ∧
    (DenseVectorProxy.mk true v).beginIter =
      .error (.invalid_argument "Invalid access to restricted element") ∧
    (DenseVectorProxy.mk true v).endIter =
      .error (.invalid_argument "Invalid access to restricted element") ∧
    (DenseVectorProxy.mk true v).resize n preserve =
      .error (.invalid_argument "Invalid access to restricted element") ∧
    (DenseVectorProxy.mk true v).extend n preserve =
      .error (.invalid_argument "Invalid access to restricted element") ∧
    (DenseVectorProxy.mk true v).reserve n =
      .error (.invalid_argument "Invalid access to restricted element") ∧
    (DenseVectorProxy.mk true v).scale scalar =
      .error (.invalid_argument "Invalid access to restricted element") ∧
    accessRestricted = .invalid_argument "Invalid access to restricted element" :=
  ⟨rfl, rfl, rfl, rfl, rfl, rfl, rfl, rfl, rfl, rfl⟩

/-- C9: the unchecked operations `size`, `capacity`, `nonZeros`, `cbegin`,
`cend`, `reset` and `clear` never consult the restriction predicate: two
proxies onto the same Representee that differ only in their restriction state
get the identical outcome and the identical effect on the Representee from
each of them. -/
theorem unchecked_ops_restriction_noninterference {α : Type} [DecidableEq α]
    [Zero α] [Mul α] (b1 b2 : Bool) (v : Rep α) :
    callOp (DenseVectorProxy.mk b1 v) .size = callOp (DenseVectorProxy.mk b2 v) .size ∧
    callOp (DenseVectorProxy.mk b1 v) .capacity = callOp (DenseVectorProxy.mk b2 v) .capacity ∧
    callOp (DenseVectorProxy.mk b1 v) .nonZeros = callOp (DenseVectorProxy.mk b2 v) .nonZeros ∧
    callOp (DenseVectorProxy.mk b1 v) .cbegin = callOp (DenseVectorProxy.mk b2 v) .cbegin ∧
    callOp (DenseVectorProxy.mk b1 v) .cend = callOp (DenseVectorProxy.mk b2 v) .cend ∧
    callOp (DenseVectorProxy.mk b1 v) .reset = callOp (DenseVectorProxy.mk b2 v) .reset ∧
    callOp (DenseVectorProxy.mk b1 v) .clear = callOp (DenseVectorProxy.mk b2 v) .clear :=
  ⟨rfl, rfl, rfl, rfl, rfl, rfl, rfl⟩

/-- C10: calling `resize` or `extend` with the preserve argument omitted is
the call with `preserve = true`: the declarations default the flag to true for
both operations. -/
theorem resize_extend_default_preserve {α : Type} [Zero α]
    (p : DenseVectorProxy α) (n : Nat) :
    p.resize n = p.resize n true ∧ p.extend n = p.extend n true :=
  ⟨rfl, rfl⟩

/-- C3, counterexample: the spec's operation surface contains `resize`, but
the GLOBAL FUNCTIONS section of the source declares no free function named
`resize` for the proxy — the free-function layer does not cover every
operation of the surface. -/
theorem free_function_dispatch_counterexample :
    "resize" ∈ specOperationSurface ∧ "resize" ∉ freeFunctionNames := by
  decide

/-- C3, amended: free functions exist exactly for `begin`, `cbegin`, `end`,
`cend`, `size`, `capacity`, `nonZeros`, `reset` and `clear`, and each is pure
delegation: for every proxy (restricted or not) it produces the identical
result and identical restriction behavior as the member of the same name.  No
free functions for indexed access, `data`, `resize`, `extend`, `reserve` or
`scale` are declared. -/
theorem free_function_dispatch_amended {α : Type} [DecidableEq α] [Zero α]
    (p : DenseVectorProxy α) :
    begin p = p.beginIter ∧ cbegin p = p.cbegin ∧ endIter p = p.endIter ∧
    cend p = p.cend ∧ size p = p.size ∧ capacity p = p.capacity ∧
    nonZeros p = p.nonZeros ∧ reset p = p.reset ∧ clear p = p.clear ∧
    freeFunctionNames =
      ["begin", "cbegin", "end", "cend", "size", "capacity", "nonZeros",
       "reset", "clear"] ∧
    (∀ s ∈ freeFunctionNames, s ∈ specOperationSurface) ∧
    "operator[]" ∉ freeFunctionNames ∧ "data" ∉ freeFunctionNames ∧
    "resize" ∉ freeFunctionNames ∧ "extend" ∉ freeFunctionNames ∧
    "reserve" ∉ freeFunctionNames ∧ "scale" ∉ freeFunctionNames :=
  ⟨rfl, rfl, rfl, rfl, rfl, rfl, rfl, rfl, rfl, rfl, by decide, by decide,
   by decide, by decide, by decide, by decide, by decide⟩

/-- C6: on an unrestricted proxy, writing `x` at a valid index `i` through the
subscript operator and then reading index `i` directly from the Representee
yields `x`. -/
theorem unrestricted_write_read_roundtrip {α : Type} (v : Rep α) (i : Nat)
    (x : α) (h : i < v.size) :
    (post v ((DenseVectorProxy.mk false v).subscriptAssign i x)).get i = .ok x := by
  have hl : i < v.elems.length := h
  simp [DenseVectorProxy.subscriptAssign, Rep.set, hl, post, Rep.get]

/-- Witness for C6 at the Representee `[1, 2, 3]`, index 1, written value 7. -/
theorem unrestricted_write_read_roundtrip_witness :
    1 < (Rep.mk ([1, 2, 3] : List Int) 3).size ∧
    (post (Rep.mk ([1, 2, 3] : List Int) 3)
        ((DenseVectorProxy.mk false (Rep.mk ([1, 2, 3] : List Int) 3)).subscriptAssign 1 7)).get 1 =
      .ok 7 :=
  ⟨by decide, unrestricted_write_read_roundtrip (Rep.mk ([1, 2, 3] : List Int) 3) 1 7 (by decide)⟩

/-- C7: the restriction predicate is consulted afresh inside every gated
call: in any sequence of calls under a time-varying predicate, the outcome of
call number `i` equals the outcome of a single fresh call on a proxy whose
restriction state is the predicate's value at exactly that call, applied to
the Representee state reached before it — no value from an earlier call is
cached. -/
theorem restriction_predicate_reevaluated_per_call {α : Type} [DecidableEq α]
    [Zero α] [Mul α] (pred : Nat → Bool) (t : Nat) (v : Rep α)
    (ops : List (Op α)) (i : Nat) :
    (outcomesFrom pred t v ops)[i]? =
      (ops[i]?).map fun op =>
        (callOp (DenseVectorProxy.mk (pred (t + i)) (stateBefore pred t v ops i)) op).1 := by
  induction ops generalizing t v i with
  | nil => simp [outcomesFrom, stateBefore]
  | cons op ops ih =>
    cases i with
    | zero => simp [outcomesFrom, stateBefore]
    | succ j =>
      have harith : t + 1 + j = t + (j + 1) := by omega
      simp only [outcomesFrom, stateBefore, List.getElem?_cons_succ]
      rw [ih, harith]

end Blaze
